import Mathlib

/-!
# Telegram Bot API proxy (`api/telegram.js`)

A shallow embedding of the four route handlers `getUpdates`, `sendMessage`,
`getMe`, `setWebhook` and of the helper `telegramRequest` they share.

* JavaScript values are the type `JSValue`.  Numbers are the integer-valued
  ones (`Int`); the handlers only test numbers for truthiness and print them.
* An object is its list of own properties in enumeration order, with one
  entry per key; reading a property that is not there gives `undefined`.
* The promise returned by `telegramRequest` is an `Except`: `.ok` is
  `resolve`, `.error m` is `reject` with an error whose `message` is `m`.
* A `Buffer` is its list of bytes.  The response arrives as a list of
  `Buffer` chunks, and `responseData += chunk` turns each chunk into a string
  on its own, by UTF-8 decoding.
* What lies outside the file is a parameter (`Platform`): the variable
  `process.env.TELEGRAM_BOT_TOKEN`, the function `JSON.parse`, and the
  network behind `https.request`.
-/

namespace Telegram

/-! ## JavaScript values -/

/-- A JavaScript value as it reaches the handlers: `req.query` (strings,
arrays, objects), `req.body` (any JSON value) and the values built from them. -/
inductive JSValue where
  | undefined
  | null
  | bool (b : Bool)
  | num (n : Int)
  | str (s : String)
  | arr (items : List JSValue)
  | obj (props : List (String × JSValue))

namespace JSValue

/-- The truthiness test applied by `!x`, `x || y`, `x && y` and `x ? a : b`. -/
def truthy : JSValue → Bool
  | undefined => false
  | null => false
  | bool b => b
  | num n => n != 0
  | str s => s != ""
  | arr _ => true
  | obj _ => true

/-- The expression `a || b`. -/
def or (a b : JSValue) : JSValue :=
  if a.truthy then a else b

/-- The test `x === undefined`. -/
def isUndefined : JSValue → Bool
  | undefined => true
  | _ => false

/-- Property read `o.k` on a property list. -/
def getProp (props : List (String × JSValue)) (k : String) : JSValue :=
  match props.lookup k with
  | some v => v
  | none => undefined

/-- Property read `v.k` on a value that is an object; other values have none
of the properties the handlers read. -/
def get : JSValue → String → JSValue
  | obj props, k => getProp props k
  | _, _ => undefined

/-- The own keys of an object, `Object.keys(v)`. -/
def keys : JSValue → List String
  | obj props => props.map Prod.fst
  | _ => []

mutual
/-- The string conversion that a template literal applies to `${v}`. An object
prints as `[object Object]`. -/
def toStr : JSValue → String
  | undefined => "undefined"
  | null => "null"
  | bool b => if b then "true" else "false"
  | num n => toString n
  | str s => s
  | arr items => ",".intercalate (itemStrs items)
  | obj _ => "[object Object]"
termination_by structural v => v
/-- The pieces that `Array.prototype.join` puts between commas: `null` and
`undefined` elements print as the empty string. -/
def itemStrs : List JSValue → List String
  | [] => []
  | undefined :: rest => "" :: itemStrs rest
  | null :: rest => "" :: itemStrs rest
  | v :: rest => toStr v :: itemStrs rest
termination_by structural l => l
end

end JSValue

/-! ## `JSON.stringify` -/

/-- One hexadecimal digit, lower case. -/
def hexDigit (n : Nat) : Char :=
  if n < 10 then Char.ofNat (48 + n) else Char.ofNat (87 + n)

/-- The escape of one character inside a JSON string literal. -/
def escapeChar (c : Char) : String :=
  if c.toNat = 34 then "\\\""
  else if c.toNat = 92 then "\\\\"
  else if c.toNat = 8 then "\\b"
  else if c.toNat = 12 then "\\f"
  else if c.toNat = 10 then "\\n"
  else if c.toNat = 13 then "\\r"
  else if c.toNat = 9 then "\\t"
  else if c.toNat < 32 then
    "\\u00" ++ String.mk [hexDigit (c.toNat / 16), hexDigit (c.toNat % 16)]
  else String.mk [c]

/-- A string as a JSON string literal. -/
def quoteJSON (s : String) : String :=
  "\"" ++ String.join (s.data.map escapeChar) ++ "\""

mutual
/-- The serialisation of a value by `JSON.stringify`; `none` is the result
`undefined` that it gives for the value `undefined`. -/
def stringify : JSValue → Option String
  | .undefined => none
  | .null => some "null"
  | .bool b => some (if b then "true" else "false")
  | .num n => some (toString n)
  | .str s => some (quoteJSON s)
  | .arr items => some ("[" ++ ",".intercalate (stringifyItems items) ++ "]")
  | .obj props => some ("\x7b" ++ ",".intercalate (stringifyProps props) ++ "\x7d")
termination_by structural v => v
/-- Array elements: an `undefined` element is written `null`. -/
def stringifyItems : List JSValue → List String
  | [] => []
  | v :: rest =>
    (match stringify v with
      | some s => s
      | none => "null") :: stringifyItems rest
termination_by structural l => l
/-- Object members: a property whose value is `undefined` is left out. -/
def stringifyProps : List (String × JSValue) → List String
  | [] => []
  | (k, v) :: rest =>
    match stringify v with
    | some s => (quoteJSON k ++ ":" ++ s) :: stringifyProps rest
    | none => stringifyProps rest
termination_by structural l => l
end

/-! ## `Buffer` to string -/

/-- The state of the UTF-8 decoder between two bytes: the code point under
construction, how many continuation bytes it needs and has seen, and the range
the next continuation byte must lie in. -/
structure Utf8State where
  codePoint : Nat
  bytesNeeded : Nat
  bytesSeen : Nat
  lower : Nat
  upper : Nat

/-- The decoder outside any sequence. -/
def utf8Initial : Utf8State := ⟨0, 0, 0, 128, 191⟩

/-- The replacement character U+FFFD. -/
def replacementChar : Char := Char.ofNat 65533

/-- A byte met outside any sequence: an ASCII byte is a character, a lead byte
opens a sequence of two, three or four bytes, any other byte is replaced. -/
def utf8Start (b : Nat) : List Char × Utf8State :=
  if b ≤ 127 then ([Char.ofNat b], utf8Initial)
  else if 194 ≤ b ∧ b ≤ 223 then ([], ⟨b % 32, 1, 0, 128, 191⟩)
  else if 224 ≤ b ∧ b ≤ 239 then
    ([], ⟨b % 16, 2, 0, if b = 224 then 160 else 128, if b = 237 then 159 else 191⟩)
  else if 240 ≤ b ∧ b ≤ 244 then
    ([], ⟨b % 8, 3, 0, if b = 240 then 144 else 128, if b = 244 then 143 else 191⟩)
  else ([replacementChar], utf8Initial)

/-- One byte: inside a sequence, a byte out of range ends the sequence with a
replacement character and is then read as a byte outside any sequence. -/
def utf8Step (st : Utf8State) (b : Nat) : List Char × Utf8State :=
  if st.bytesNeeded = 0 then utf8Start b
  else if b < st.lower ∨ st.upper < b then
    (replacementChar :: (utf8Start b).1, (utf8Start b).2)
  else if st.bytesSeen + 1 = st.bytesNeeded then
    ([Char.ofNat (st.codePoint * 64 + b % 64)], utf8Initial)
  else ([], ⟨st.codePoint * 64 + b % 64, st.bytesNeeded, st.bytesSeen + 1, 128, 191⟩)

/-- The characters of a run of bytes; a sequence that the end of the bytes
cuts short is replaced. -/
def utf8DecodeFrom : Utf8State → List Nat → List Char
  | st, [] => if st.bytesNeeded = 0 then [] else [replacementChar]
  | st, b :: rest => (utf8Step st b).1 ++ utf8DecodeFrom (utf8Step st b).2 rest

/-- The string of a `Buffer`, `buffer.toString()`: UTF-8 decoding in which
every ill-formed part becomes U+FFFD. -/
def utf8Decode (bytes : List Nat) : String :=
  String.mk (utf8DecodeFrom utf8Initial bytes)

/-! ## The outside world -/

/-- The `options` handed to `https.request`, with the `Content-Length` header
(present only for a request with a body) and what `req.write` wrote. -/
structure HttpsRequest where
  hostname : String
  path : String
  method : String
  contentType : String
  contentLength : Option Nat
  body : Option String

/-- What the network does with one request: the request emits `error` with an
error whose message is given, or the response arrives, its status code is
whatever it is, and its `data` chunks, each a `Buffer`, are followed by
`end`. -/
inductive NetOutcome where
  | error (message : String)
  | response (statusCode : Nat) (chunks : List (List Nat))

/-- The environment of the module: the default token of the process, the
function `JSON.parse` (`none` where it throws) and the network. -/
structure Platform where
  TELEGRAM_BOT_TOKEN : Option String
  JSON_parse : String → Option JSValue
  https_request : HttpsRequest → NetOutcome

/-- The value of `process.env.TELEGRAM_BOT_TOKEN`. -/
def Platform.envToken (p : Platform) : JSValue :=
  match p.TELEGRAM_BOT_TOKEN with
  | some s => .str s
  | none => .undefined

/-- The inbound request: `req.query` and `req.body` as property lists. -/
structure Request where
  query : List (String × JSValue)
  body : List (String × JSValue)

/-- The reply of a handler: `res.status(status).json(body)`; `res.json(body)`
alone has status 200. -/
structure Response where
  status : Nat
  body : JSValue

/-- The arguments of one invocation of `telegramRequest`; `data` is
`undefined` when the caller passes two arguments only. -/
structure TelegramCall where
  method : String
  token : JSValue
  data : JSValue

/-- What a handler did: the invocations of `telegramRequest`, the requests
handed to `https.request`, and the reply. -/
structure Outcome where
  calls : List TelegramCall
  requests : List HttpsRequest
  response : Response

/-! ## `telegramRequest` -/

/-- The accumulation `responseData += chunk` over the `data` events: no
encoding is set on the response, so each chunk is a `Buffer`, and `+=` appends
the string of that chunk alone. -/
def responseData (chunks : List (List Nat)) : String :=
  chunks.foldl (fun acc chunk => acc ++ utf8Decode chunk) ""

/-- The `options` and body that `telegramRequest(method, token, data)` builds.
The parameter `data` defaults to `null` when the argument is `undefined`. -/
def buildRequest (method : String) (token : JSValue) (dataArg : JSValue) : HttpsRequest :=
  let data := if dataArg.isUndefined then JSValue.null else dataArg
  let postData : Option String := if data.truthy then stringify data else none
  let hasPostData : Bool :=
    match postData with
    | some s => s != ""
    | none => false
  { hostname := "api.telegram.org"
    path := "/bot" ++ token.toStr ++ "/" ++ method
    method := if data.truthy then "POST" else "GET"
    contentType := "application/json"
    contentLength := if hasPostData then postData.map String.utf8ByteSize else none
    body := if hasPostData then postData else none }

/-- The helper `telegramRequest`: the request it issues and how its promise
settles. -/
def telegramRequest (p : Platform) (method : String) (token : JSValue) (dataArg : JSValue) :
    HttpsRequest × Except String JSValue :=
  let request := buildRequest method token dataArg
  (request,
    match p.https_request request with
    | .error message => .error message
    | .response _ chunks =>
      match p.JSON_parse (responseData chunks) with
      | some jsonData => .ok jsonData
      | none => .error "Invalid JSON response from Telegram API")

/-! ## The route handlers -/

/-- The body `{ok: false, description: d}`. -/
def errorBody (d : String) : JSValue :=
  .obj [("ok", .bool false), ("description", .str d)]

/-- An early `return res.status(400).json(...)`: nothing was called. -/
def reject400 (d : String) : Outcome :=
  { calls := [], requests := [], response := ⟨400, errorBody d⟩ }

/-- The tail every handler ends with: `await telegramRequest(...)`, then
`res.json(result)`, or the `catch` block with status 500. -/
def forward (p : Platform) (method : String) (token : JSValue) (dataArg : JSValue) : Outcome :=
  let r := telegramRequest p method token dataArg
  { calls := [⟨method, token, dataArg⟩]
    requests := [r.1]
    response :=
      match r.2 with
      | .ok result => ⟨200, result⟩
      | .error message => ⟨500, errorBody ("Internal server error: " ++ message)⟩ }

/-- The loop `Object.keys(o).forEach(key => o[key] === undefined && delete o[key])`. -/
def removeUndefined (props : List (String × JSValue)) : List (String × JSValue) :=
  props.filter (fun kv => !kv.2.isUndefined)

/-- The token of a GET handler: `req.query.token || process.env.TELEGRAM_BOT_TOKEN`. -/
def queryToken (p : Platform) (req : Request) : JSValue :=
  (JSValue.getProp req.query "token").or p.envToken

/-- The token of a POST handler: `req.body.token || process.env.TELEGRAM_BOT_TOKEN`. -/
def bodyToken (p : Platform) (req : Request) : JSValue :=
  (JSValue.getProp req.body "token").or p.envToken

/-- Handler of `GET /api/getUpdates`. -/
def getUpdates (p : Platform) (req : Request) : Outcome :=
  let token := queryToken p req
  if !token.truthy then reject400 "Bot token is required"
  else
    let params : List (String × JSValue) :=
      [ ("offset", (JSValue.getProp req.query "offset").or .undefined),
        ("limit", (JSValue.getProp req.query "limit").or (.num 100)),
        ("timeout", (JSValue.getProp req.query "timeout").or (.num 0)) ]
    forward p "getUpdates" token (.obj (removeUndefined params))

/-- Handler of `POST /api/sendMessage`. -/
def sendMessage (p : Platform) (req : Request) : Outcome :=
  let token := bodyToken p req
  if !token.truthy then reject400 "Bot token is required"
  else if !(JSValue.getProp req.body "chat_id").truthy || !(JSValue.getProp req.body "text").truthy then
    reject400 "chat_id and text are required"
  else
    let messageData : List (String × JSValue) :=
      [ ("chat_id", JSValue.getProp req.body "chat_id"),
        ("text", JSValue.getProp req.body "text"),
        ("parse_mode", (JSValue.getProp req.body "parse_mode").or .undefined),
        ("reply_to_message_id", (JSValue.getProp req.body "reply_to_message_id").or .undefined),
        ("disable_notification", (JSValue.getProp req.body "disable_notification").or .undefined) ]
    forward p "sendMessage" token (.obj (removeUndefined messageData))

/-- Handler of `GET /api/getMe`: `telegramRequest('getMe', token)`, no third
argument. -/
def getMe (p : Platform) (req : Request) : Outcome :=
  let token := queryToken p req
  if !token.truthy then reject400 "Bot token is required"
  else forward p "getMe" token .undefined

/-- Handler of `POST /api/setWebhook`. -/
def setWebhook (p : Platform) (req : Request) : Outcome :=
  let token := bodyToken p req
  if !token.truthy then reject400 "Bot token is required"
  else
    let webhookData : List (String × JSValue) :=
      [ ("url", (JSValue.getProp req.body "url").or (.str "")),
        ("drop_pending_updates", (JSValue.getProp req.body "drop_pending_updates").or (.bool false)) ]
    forward p "setWebhook" token (.obj webhookData)

/-! ## The router -/

/-- The four routes registered on the router. -/
inductive Route where
  | getUpdates
  | sendMessage
  | getMe
  | setWebhook

/-- Dispatch of a route to its handler. -/
def handle : Route → Platform → Request → Outcome
  | .getUpdates => getUpdates
  | .sendMessage => sendMessage
  | .getMe => getMe
  | .setWebhook => setWebhook

/-- The token the request itself carries: `req.query.token` on the GET routes,
`req.body.token` on the POST routes. -/
def requestToken : Route → Request → JSValue
  | .getUpdates, req => JSValue.getProp req.query "token"
  | .getMe, req => JSValue.getProp req.query "token"
  | .sendMessage, req => JSValue.getProp req.body "token"
  | .setWebhook, req => JSValue.getProp req.body "token"

/-- The request gets past the early `return res.status(400)` of its handler:
the token is truthy and, for `sendMessage`, so are `chat_id` and `text`. -/
def passesValidation : Route → Platform → Request → Bool
  | .getUpdates, p, req => (queryToken p req).truthy
  | .getMe, p, req => (queryToken p req).truthy
  | .sendMessage, p, req =>
    (bodyToken p req).truthy && (JSValue.getProp req.body "chat_id").truthy &&
      (JSValue.getProp req.body "text").truthy
  | .setWebhook, p, req => (bodyToken p req).truthy

/-! ## Sample platforms and requests -/

/-- A platform whose network answers every request the same way and whose
`JSON.parse` knows one text. -/
def stubPlatform (envTok : Option String) (answer : NetOutcome) (text : String) (value : JSValue) :
    Platform :=
  { TELEGRAM_BOT_TOKEN := envTok
    JSON_parse := fun s => if s = text then some value else none
    https_request := fun _ => answer }

/-- The bytes of a text of ASCII characters. -/
def asciiBytes (s : String) : List Nat :=
  s.data.map Char.toNat

/-- The upstream body `{"ok":true,"result":[]}`, delivered in three chunks. -/
def okChunks : List (List Nat) :=
  [asciiBytes "\x7b\"ok\":true,", asciiBytes "\"result\":", asciiBytes "[]\x7d"]

/-- The upstream body `"é"`, the four bytes 22 C3 A9 22, delivered in two
chunks that part the two bytes of the character. -/
def splitChunks : List (List Nat) :=
  [[0x22, 0xC3], [0xA9, 0x22]]

/-- A platform whose upstream answers `"é"` in the chunks `splitChunks`;
`JSON.parse` is given on the text `"é"` and on the text of U+FFFD U+FFFD in
quotes, two string literals. -/
def splitPlatform : Platform :=
  { TELEGRAM_BOT_TOKEN := none
    JSON_parse := fun s =>
      if s = "\"\u00e9\"" then some (.str "\u00e9")
      else if s = "\"\ufffd\ufffd\"" then some (.str "\ufffd\ufffd")
      else none
    https_request := fun _ => .response 200 splitChunks }

/-- The value of the text `{"ok":true,"result":[]}`. -/
def okValue : JSValue := .obj [("ok", .bool true), ("result", .arr [])]

/-- A platform without default token whose upstream answers
`{"ok":true,"result":[]}` with status 200. -/
def okPlatform : Platform :=
  stubPlatform none (.response 200 okChunks) "\x7b\"ok\":true,\"result\":[]\x7d" okValue

/-- A platform with the default token `ENV` whose upstream refuses the
connection. -/
def envPlatform : Platform :=
  stubPlatform (some "ENV") (.error "connect ECONNREFUSED") "" .null

/-- A request without any field. -/
def emptyRequest : Request := { query := [], body := [] }

/-- A `sendMessage` body without `chat_id`. -/
def noChatRequest : Request :=
  { query := [], body := [("token", .str "T"), ("text", .str "hi")] }

/-- A `sendMessage` body whose optional fields are given and falsy:
`reply_to_message_id: 0` and `disable_notification: false`. -/
def falsyOptionsRequest : Request :=
  { query := []
    body := [("token", .str "T"), ("chat_id", .num 1), ("text", .str "hi"),
      ("reply_to_message_id", .num 0), ("disable_notification", .bool false)] }

/-- A `sendMessage` body with `parse_mode: "HTML"` and
`disable_notification: false`. -/
def htmlRequest : Request :=
  { query := []
    body := [("token", .str "T"), ("chat_id", .num 1), ("text", .str "hi"),
      ("parse_mode", .str "HTML"), ("disable_notification", .bool false)] }

/-- A `getUpdates` query with a token and `offset=5`. -/
def offsetRequest : Request :=
  { query := [("token", .str "T"), ("offset", .str "5")], body := [] }

/-- A `setWebhook` body with `drop_pending_updates: 0`. -/
def zeroFlagRequest : Request :=
  { query := []
    body := [("token", .str "T"), ("url", .str "https://example.org/hook"),
      ("drop_pending_updates", .num 0)] }

/-- A `getUpdates` query `?token=T&limit=`: the limit is the empty string. -/
def blankLimitRequest : Request :=
  { query := [("token", .str "T"), ("limit", .str "")], body := [] }

/-- A request whose token is given and is the empty string, in the query and
in the body. -/
def blankTokenRequest : Request :=
  { query := [("token", .str "")]
    body := [("token", .str ""), ("chat_id", .num 1), ("text", .str "hi")] }

/-- A request with the token `T` in the query and in the body, and the fields
`sendMessage` requires. -/
def tokenRequest : Request :=
  { query := [("token", .str "T"), ("verbose", .str "1")]
    body := [("token", .str "T"), ("chat_id", .num 1), ("text", .str "hi")] }

/-- A `sendMessage` body with `chat_id: 0`. -/
def zeroChatRequest : Request :=
  { query := [], body := [("token", .str "T"), ("chat_id", .num 0), ("text", .str "hi")] }

/-- A platform whose upstream answers with a body that is not JSON. -/
def htmlPlatform : Platform :=
  stubPlatform none (.response 502 [asciiBytes "<html>Bad Gateway</html>"])
    "\x7b\"ok\":true,\"result\":[]\x7d" okValue

/-! ## Basic facts -/

open JSValue

theorem truthy_undefined : JSValue.undefined.truthy = false := rfl

theorem truthy_not_undefined {v : JSValue} (h : v.truthy = true) : v.isUndefined = false := by
  cases v <;> simp_all [truthy, isUndefined]

theorem or_of_truthy {a : JSValue} (b : JSValue) (h : a.truthy = true) : a.or b = a := by
  simp [JSValue.or, h]

theorem or_of_falsy {a : JSValue} (b : JSValue) (h : a.truthy = false) : a.or b = b := by
  simp [JSValue.or, h]

theorem envToken_none {p : Platform} (h : p.TELEGRAM_BOT_TOKEN = none) :
    p.envToken = undefined := by
  simp [Platform.envToken, h]

theorem getUpdates_reject {p : Platform} {req : Request} (h : (queryToken p req).truthy = false) :
    getUpdates p req = reject400 "Bot token is required" := by
  simp [getUpdates, h]

theorem getMe_reject {p : Platform} {req : Request} (h : (queryToken p req).truthy = false) :
    getMe p req = reject400 "Bot token is required" := by
  simp [getMe, h]

theorem sendMessage_reject {p : Platform} {req : Request} (h : (bodyToken p req).truthy = false) :
    sendMessage p req = reject400 "Bot token is required" := by
  simp [sendMessage, h]

theorem setWebhook_reject {p : Platform} {req : Request} (h : (bodyToken p req).truthy = false) :
    setWebhook p req = reject400 "Bot token is required" := by
  simp [setWebhook, h]

theorem queryToken_missing {p : Platform} {req : Request} (henv : p.TELEGRAM_BOT_TOKEN = none)
    (hq : getProp req.query "token" = undefined) : (queryToken p req).truthy = false := by
  simp [queryToken, hq, JSValue.or, truthy, envToken_none henv]

theorem bodyToken_missing {p : Platform} {req : Request} (henv : p.TELEGRAM_BOT_TOKEN = none)
    (hb : getProp req.body "token" = undefined) : (bodyToken p req).truthy = false := by
  simp [bodyToken, hb, JSValue.or, truthy, envToken_none henv]

/-! ## Validation -/

/-- C1: with no default token in the environment, a request without a token
is answered 400 `{ok: false, description: "Bot token is required"}` by each of
the four handlers (the GET handlers read the query, the POST handlers the
body), and `telegramRequest` is not invoked and no request is issued. -/
theorem missing_token_rejected (p : Platform) (reqGet reqPost : Request)
    (henv : p.TELEGRAM_BOT_TOKEN = none)
    (hq : getProp reqGet.query "token" = undefined)
    (hb : getProp reqPost.body "token" = undefined) :
    getUpdates p reqGet =
        { calls := [], requests := [],
          response := ⟨400, .obj [("ok", .bool false), ("description", .str "Bot token is required")]⟩ } ∧
      getMe p reqGet =
        { calls := [], requests := [],
          response := ⟨400, .obj [("ok", .bool false), ("description", .str "Bot token is required")]⟩ } ∧
      sendMessage p reqPost =
        { calls := [], requests := [],
          response := ⟨400, .obj [("ok", .bool false), ("description", .str "Bot token is required")]⟩ } ∧
      setWebhook p reqPost =
        { calls := [], requests := [],
          response := ⟨400, .obj [("ok", .bool false), ("description", .str "Bot token is required")]⟩ } :=
  ⟨getUpdates_reject (queryToken_missing henv hq), getMe_reject (queryToken_missing henv hq),
    sendMessage_reject (bodyToken_missing henv hb), setWebhook_reject (bodyToken_missing henv hb)⟩

theorem missing_token_rejected_witness :
    getUpdates okPlatform emptyRequest =
        { calls := [], requests := [],
          response := ⟨400, .obj [("ok", .bool false), ("description", .str "Bot token is required")]⟩ } ∧
      getMe okPlatform emptyRequest =
        { calls := [], requests := [],
          response := ⟨400, .obj [("ok", .bool false), ("description", .str "Bot token is required")]⟩ } ∧
      sendMessage okPlatform emptyRequest =
        { calls := [], requests := [],
          response := ⟨400, .obj [("ok", .bool false), ("description", .str "Bot token is required")]⟩ } ∧
      setWebhook okPlatform emptyRequest =
        { calls := [], requests := [],
          response := ⟨400, .obj [("ok", .bool false), ("description", .str "Bot token is required")]⟩ } :=
  missing_token_rejected okPlatform emptyRequest emptyRequest rfl rfl rfl

/-- C2: a `sendMessage` request whose token resolves (from the body or from
the environment) and whose body has no `chat_id` or no `text` is answered 400
`{ok: false, description: "chat_id and text are required"}`, and
`telegramRequest` is not invoked and no request is issued. -/
theorem sendMessage_missing_field (p : Platform) (req : Request)
    (htoken : (bodyToken p req).truthy = true)
    (hmissing : getProp req.body "chat_id" = undefined ∨ getProp req.body "text" = undefined) :
    sendMessage p req =
      { calls := [], requests := [],
        response :=
          ⟨400, .obj [("ok", .bool false), ("description", .str "chat_id and text are required")]⟩ } := by
  rcases hmissing with h | h <;>
    simp [sendMessage, htoken, h, truthy_undefined, reject400, errorBody]

theorem sendMessage_missing_field_witness :
    (bodyToken okPlatform noChatRequest).truthy = true ∧
      getProp noChatRequest.body "chat_id" = undefined ∧
      sendMessage okPlatform noChatRequest =
        { calls := [], requests := [],
          response :=
            ⟨400, .obj [("ok", .bool false), ("description", .str "chat_id and text are required")]⟩ } :=
  ⟨by decide, rfl, sendMessage_missing_field okPlatform noChatRequest (by decide) (Or.inl rfl)⟩

/-! ## The parameter set of `sendMessage` -/

theorem isUndefined_undefined : JSValue.undefined.isUndefined = true := rfl

theorem removeUndefined_nil : removeUndefined [] = [] := rfl

theorem removeUndefined_cons (kv : String × JSValue) (rest : List (String × JSValue)) :
    removeUndefined (kv :: rest) =
      if kv.2.isUndefined then removeUndefined rest else kv :: removeUndefined rest := by
  cases h : kv.2.isUndefined <;> simp [removeUndefined, List.filter_cons, h]

theorem removeUndefined_defined (props : List (String × JSValue)) :
    ∀ kv ∈ removeUndefined props, kv.2.isUndefined = false := by
  intro kv hkv
  simpa [removeUndefined] using (List.mem_filter.mp hkv).2

theorem getProp_cons (k k0 : String) (v : JSValue) (rest : List (String × JSValue)) :
    getProp ((k0, v) :: rest) k = if k = k0 then v else getProp rest k := by
  by_cases h : k = k0
  · simp [getProp, List.lookup_cons, h]
  · have hne : (k == k0) = false := by simpa using h
    simp [getProp, List.lookup_cons, h, hne]

theorem getProp_defined {props : List (String × JSValue)}
    (h : ∀ kv ∈ props, kv.2.isUndefined = false) {k : String}
    (hk : k ∈ props.map Prod.fst) : getProp props k ≠ undefined := by
  induction props with
  | nil => simp at hk
  | cons kv rest ih =>
    obtain ⟨k0, v⟩ := kv
    rw [getProp_cons]
    by_cases hkk : k = k0
    · simp only [hkk, if_true]
      intro hv
      have := h (k0, v) (List.mem_cons_self _ _)
      simp [hv, isUndefined] at this
    · simp only [hkk, if_false]
      apply ih
      · intro kv hkv
        exact h kv (List.mem_cons_of_mem _ hkv)
      · simpa [hkk] using hk

theorem sendMessage_forward {p : Platform} {req : Request}
    (htoken : (bodyToken p req).truthy = true)
    (hchat : (getProp req.body "chat_id").truthy = true)
    (htext : (getProp req.body "text").truthy = true) :
    sendMessage p req =
      forward p "sendMessage" (bodyToken p req)
        (.obj (removeUndefined
          [ ("chat_id", getProp req.body "chat_id"),
            ("text", getProp req.body "text"),
            ("parse_mode", (getProp req.body "parse_mode").or .undefined),
            ("reply_to_message_id", (getProp req.body "reply_to_message_id").or .undefined),
            ("disable_notification", (getProp req.body "disable_notification").or .undefined) ])) := by
  simp [sendMessage, htoken, hchat, htext]

theorem sendMessage_invalid {p : Platform} {req : Request}
    (htoken : (bodyToken p req).truthy = true)
    (h : ¬((getProp req.body "chat_id").truthy = true ∧ (getProp req.body "text").truthy = true)) :
    sendMessage p req = reject400 "chat_id and text are required" := by
  by_cases hchat : (getProp req.body "chat_id").truthy = true
  · have htext : (getProp req.body "text").truthy = false := by
      cases ht : (getProp req.body "text").truthy
      · rfl
      · exact absurd ⟨hchat, ht⟩ h
    simp [sendMessage, htoken, hchat, htext]
  · have hchat0 : (getProp req.body "chat_id").truthy = false := by simpa using hchat
    simp [sendMessage, htoken, hchat0]

/-- The parameter set of `sendMessage` as a function of the five fields. -/
theorem messageData_eq (a b c d e : JSValue) (ha : a.truthy = true) (hb : b.truthy = true) :
    removeUndefined
        [ ("chat_id", a), ("text", b), ("parse_mode", c.or .undefined),
          ("reply_to_message_id", d.or .undefined), ("disable_notification", e.or .undefined) ] =
      [("chat_id", a), ("text", b)] ++ (if c.truthy then [("parse_mode", c)] else []) ++
        (if d.truthy then [("reply_to_message_id", d)] else []) ++
        (if e.truthy then [("disable_notification", e)] else []) := by
  have ha0 := truthy_not_undefined ha
  have hb0 := truthy_not_undefined hb
  cases hc : c.truthy <;> cases hd : d.truthy <;> cases he : e.truthy <;>
    simp [removeUndefined_cons, removeUndefined_nil, JSValue.or, hc, hd, he, ha0, hb0,
      isUndefined_undefined, truthy_not_undefined]

theorem forward_calls (p : Platform) (method : String) (token data : JSValue) :
    (forward p method token data).calls = [⟨method, token, data⟩] := rfl

theorem forward_requests (p : Platform) (method : String) (token data : JSValue) :
    (forward p method token data).requests = [buildRequest method token data] := rfl

/-- The optional fields in the parameter set of `sendMessage`. -/
theorem optional_fields_spec (req : Request) (k : String)
    (hchat : (getProp req.body "chat_id").truthy = true)
    (htext : (getProp req.body "text").truthy = true)
    (hk : k = "parse_mode" ∨ k = "reply_to_message_id" ∨ k = "disable_notification") :
    (k ∈ (JSValue.obj (removeUndefined
          [ ("chat_id", getProp req.body "chat_id"),
            ("text", getProp req.body "text"),
            ("parse_mode", (getProp req.body "parse_mode").or .undefined),
            ("reply_to_message_id", (getProp req.body "reply_to_message_id").or .undefined),
            ("disable_notification",
              (getProp req.body "disable_notification").or .undefined) ])).keys ↔
        (getProp req.body k).truthy = true) ∧
      ((getProp req.body k).truthy = true →
        (JSValue.obj (removeUndefined
          [ ("chat_id", getProp req.body "chat_id"),
            ("text", getProp req.body "text"),
            ("parse_mode", (getProp req.body "parse_mode").or .undefined),
            ("reply_to_message_id", (getProp req.body "reply_to_message_id").or .undefined),
            ("disable_notification",
              (getProp req.body "disable_notification").or .undefined) ])).get k =
          getProp req.body k) := by
  rw [messageData_eq _ _ _ _ _ hchat htext]
  generalize getProp req.body "chat_id" = a
  generalize getProp req.body "text" = b
  rcases hk with rfl | rfl | rfl
  · generalize getProp req.body "parse_mode" = c
    generalize getProp req.body "reply_to_message_id" = d
    generalize getProp req.body "disable_notification" = e
    cases hc : c.truthy <;> cases hd : d.truthy <;> cases he : e.truthy <;>
      simp [JSValue.keys, JSValue.get, getProp_cons]
  · generalize getProp req.body "parse_mode" = c
    generalize getProp req.body "reply_to_message_id" = d
    generalize getProp req.body "disable_notification" = e
    cases hc : c.truthy <;> cases hd : d.truthy <;> cases he : e.truthy <;>
      simp [JSValue.keys, JSValue.get, getProp_cons]
  · generalize getProp req.body "parse_mode" = c
    generalize getProp req.body "reply_to_message_id" = d
    generalize getProp req.body "disable_notification" = e
    cases hc : c.truthy <;> cases hd : d.truthy <;> cases he : e.truthy <;>
      simp [JSValue.keys, JSValue.get, getProp_cons]

/-- C3, as stated, fails: `reply_to_message_id: 0` and
`disable_notification: false` are given in the body of a valid `sendMessage`
request, and the parameter set passed to `telegramRequest` has the keys
`chat_id` and `text` only. -/
theorem falsy_optional_fields_dropped :
    getProp falsyOptionsRequest.body "reply_to_message_id" = .num 0 ∧
      getProp falsyOptionsRequest.body "disable_notification" = .bool false ∧
      (sendMessage okPlatform falsyOptionsRequest).calls =
        [⟨"sendMessage", .str "T", .obj [("chat_id", .num 1), ("text", .str "hi")]⟩] ∧
      (sendMessage okPlatform falsyOptionsRequest).calls.map (fun c => c.data.keys) =
        [["chat_id", "text"]] :=
  ⟨rfl, rfl, rfl, by decide⟩

/-- C3, amended: in a `sendMessage` request that passes validation, each of
the optional fields `parse_mode`, `reply_to_message_id`,
`disable_notification` is a key of the parameter set passed to
`telegramRequest` exactly when its value in the body is truthy, and then it
has that value; a missing or falsy value is dropped. -/
theorem optional_field_forwarded_iff_truthy (p : Platform) (req : Request) (k : String)
    (htoken : (bodyToken p req).truthy = true)
    (hchat : (getProp req.body "chat_id").truthy = true)
    (htext : (getProp req.body "text").truthy = true)
    (hk : k = "parse_mode" ∨ k = "reply_to_message_id" ∨ k = "disable_notification") :
    ∃ data, (sendMessage p req).calls = [⟨"sendMessage", bodyToken p req, data⟩] ∧
      (k ∈ data.keys ↔ (getProp req.body k).truthy = true) ∧
      ((getProp req.body k).truthy = true → data.get k = getProp req.body k) := by
  rw [sendMessage_forward htoken hchat htext, forward_calls]
  exact ⟨_, rfl, optional_fields_spec req k hchat htext hk⟩

theorem optional_field_forwarded_iff_truthy_witness :
    ∃ data, (sendMessage okPlatform htmlRequest).calls =
        [⟨"sendMessage", bodyToken okPlatform htmlRequest, data⟩] ∧
      ("parse_mode" ∈ data.keys ↔ (getProp htmlRequest.body "parse_mode").truthy = true) ∧
      ((getProp htmlRequest.body "parse_mode").truthy = true →
        data.get "parse_mode" = getProp htmlRequest.body "parse_mode") :=
  optional_field_forwarded_iff_truthy okPlatform htmlRequest "parse_mode" (by decide) (by decide)
    (by decide) (Or.inl rfl)

/-! ## The parameter set of `getUpdates` -/

theorem getUpdates_forward {p : Platform} {req : Request}
    (htoken : (queryToken p req).truthy = true) :
    getUpdates p req =
      forward p "getUpdates" (queryToken p req)
        (.obj (removeUndefined
          [ ("offset", (getProp req.query "offset").or .undefined),
            ("limit", (getProp req.query "limit").or (.num 100)),
            ("timeout", (getProp req.query "timeout").or (.num 0)) ])) := by
  simp [getUpdates, htoken]

theorem or_defined (a : JSValue) {b : JSValue} (hb : b.isUndefined = false) :
    (a.or b).isUndefined = false := by
  cases h : a.truthy
  · simpa [JSValue.or, h] using hb
  · simpa [JSValue.or, h] using truthy_not_undefined h

theorem params_eq (o l t : JSValue) :
    removeUndefined
        [("offset", o.or .undefined), ("limit", l.or (.num 100)), ("timeout", t.or (.num 0))] =
      (if o.truthy then [("offset", o)] else []) ++
        [("limit", l.or (.num 100)), ("timeout", t.or (.num 0))] := by
  have hl : (l.or (.num 100)).isUndefined = false := or_defined l rfl
  have ht : (t.or (.num 0)).isUndefined = false := or_defined t rfl
  cases ho : o.truthy
  · simp [removeUndefined_cons, removeUndefined_nil, or_of_falsy _ ho, hl, ht,
      isUndefined_undefined]
  · simp [removeUndefined_cons, removeUndefined_nil, or_of_truthy _ ho, hl, ht,
      truthy_not_undefined ho]

theorem sendMessage_calls (p : Platform) (req : Request) :
    (sendMessage p req).calls =
      if (bodyToken p req).truthy ∧ (getProp req.body "chat_id").truthy ∧
          (getProp req.body "text").truthy then
        [⟨"sendMessage", bodyToken p req,
          .obj (removeUndefined
            [ ("chat_id", getProp req.body "chat_id"),
              ("text", getProp req.body "text"),
              ("parse_mode", (getProp req.body "parse_mode").or .undefined),
              ("reply_to_message_id", (getProp req.body "reply_to_message_id").or .undefined),
              ("disable_notification",
                (getProp req.body "disable_notification").or .undefined) ])⟩]
      else [] := by
  cases htoken : (bodyToken p req).truthy
  · simp [sendMessage_reject htoken, reject400]
  · by_cases h : (getProp req.body "chat_id").truthy = true ∧ (getProp req.body "text").truthy = true
    · simp [sendMessage_forward htoken h.1 h.2, forward_calls, h.1, h.2]
    · rw [sendMessage_invalid htoken h]
      simp only [true_and, reject400]
      rw [if_neg h]

theorem truthy_ne_undefined {v : JSValue} (h : v.truthy = true) : v ≠ undefined := by
  intro hv
  simp [hv, truthy_undefined] at h

/-- C4: in every invocation of `telegramRequest` by `getUpdates` and by
`sendMessage`, no key of the parameter set has the value `undefined`, and an
optional field without default (`offset`; `parse_mode`,
`reply_to_message_id`, `disable_notification`) is a key only if the request
has that field. -/
theorem outbound_params_defined (p : Platform) (req : Request) :
    (∀ c ∈ (getUpdates p req).calls,
        (∀ k ∈ c.data.keys, c.data.get k ≠ undefined) ∧
          ("offset" ∈ c.data.keys → getProp req.query "offset" ≠ undefined)) ∧
      (∀ c ∈ (sendMessage p req).calls,
        (∀ k ∈ c.data.keys, c.data.get k ≠ undefined) ∧
          ∀ k, k = "parse_mode" ∨ k = "reply_to_message_id" ∨ k = "disable_notification" →
            k ∈ c.data.keys → getProp req.body k ≠ undefined) := by
  constructor
  · intro c hc
    cases htoken : (queryToken p req).truthy
    · simp [getUpdates_reject htoken, reject400] at hc
    · rw [getUpdates_forward htoken, forward_calls, List.mem_singleton] at hc
      subst hc
      refine ⟨fun k hk => getProp_defined (removeUndefined_defined _) hk, ?_⟩
      simp only [params_eq, JSValue.keys]
      cases ho : (getProp req.query "offset").truthy
      · simp
      · intro _
        exact truthy_ne_undefined ho
  · intro c hc
    rw [sendMessage_calls] at hc
    split at hc
    · next hv =>
      rw [List.mem_singleton] at hc
      subst hc
      refine ⟨fun k hk => getProp_defined (removeUndefined_defined _) hk, ?_⟩
      intro k hk hmem
      have h := optional_fields_spec req k hv.2.1 hv.2.2 hk
      exact truthy_ne_undefined (h.1.mp hmem)
    · simp at hc

theorem outbound_params_defined_witness :
    ((⟨"getUpdates", .str "T",
          .obj [("offset", .str "5"), ("limit", .num 100), ("timeout", .num 0)]⟩ :
        TelegramCall) ∈ (getUpdates okPlatform offsetRequest).calls ∧
      (∀ k ∈ ["offset", "limit", "timeout"],
        getProp [("offset", .str "5"), ("limit", .num 100), ("timeout", .num 0)] k ≠
          undefined) ∧
      getProp offsetRequest.query "offset" ≠ undefined) ∧
    ((⟨"sendMessage", .str "T",
          .obj [("chat_id", .num 1), ("text", .str "hi"), ("parse_mode", .str "HTML")]⟩ :
        TelegramCall) ∈ (sendMessage okPlatform htmlRequest).calls ∧
      (∀ k ∈ ["chat_id", "text", "parse_mode"],
        getProp [("chat_id", .num 1), ("text", .str "hi"), ("parse_mode", .str "HTML")] k ≠
          undefined) ∧
      getProp htmlRequest.body "parse_mode" ≠ undefined) :=
  ⟨⟨List.mem_cons_self _ _,
      ((outbound_params_defined okPlatform offsetRequest).1 _ (List.mem_cons_self _ _)).1,
      ((outbound_params_defined okPlatform offsetRequest).1 _ (List.mem_cons_self _ _)).2
        (by decide)⟩,
    ⟨List.mem_cons_self _ _,
      ((outbound_params_defined okPlatform htmlRequest).2 _ (List.mem_cons_self _ _)).1,
      ((outbound_params_defined okPlatform htmlRequest).2 _ (List.mem_cons_self _ _)).2
        "parse_mode" (Or.inl rfl) (by decide)⟩⟩

/-- C10: in a `sendMessage` request whose token resolves, `telegramRequest`
is invoked (and a request issued) if and only if `chat_id` and `text` are
both truthy; otherwise, for a falsy value as for a missing one, the reply is
400 `{ok: false, description: "chat_id and text are required"}`; and when both
are truthy the parameter set carries `chat_id` and `text` unchanged. -/
theorem sendMessage_calls_iff_truthy (p : Platform) (req : Request)
    (htoken : (bodyToken p req).truthy = true) :
    ((sendMessage p req).calls ≠ [] ↔
        (getProp req.body "chat_id").truthy = true ∧ (getProp req.body "text").truthy = true) ∧
      ((sendMessage p req).requests ≠ [] ↔
        (getProp req.body "chat_id").truthy = true ∧ (getProp req.body "text").truthy = true) ∧
      (¬((getProp req.body "chat_id").truthy = true ∧ (getProp req.body "text").truthy = true) →
        sendMessage p req =
          { calls := [], requests := [],
            response :=
              ⟨400, .obj [("ok", .bool false),
                ("description", .str "chat_id and text are required")]⟩ }) ∧
      ((getProp req.body "chat_id").truthy = true ∧ (getProp req.body "text").truthy = true →
        ∃ data, (sendMessage p req).calls = [⟨"sendMessage", bodyToken p req, data⟩] ∧
          data.get "chat_id" = getProp req.body "chat_id" ∧
          data.get "text" = getProp req.body "text") := by
  by_cases h : (getProp req.body "chat_id").truthy = true ∧ (getProp req.body "text").truthy = true
  · have hf := sendMessage_forward htoken h.1 h.2
    refine ⟨?_, ?_, fun hn => absurd h hn, fun _ => ?_⟩
    · simp [hf, forward_calls, h]
    · simp [hf, forward_requests, h]
    · refine ⟨_, by rw [hf, forward_calls], ?_, ?_⟩
      · rw [messageData_eq _ _ _ _ _ h.1 h.2]
        simp [JSValue.get, getProp_cons]
      · rw [messageData_eq _ _ _ _ _ h.1 h.2]
        simp [JSValue.get, getProp_cons]
  · have hr := sendMessage_invalid htoken h
    refine ⟨?_, ?_, fun _ => hr, fun hv => absurd hv h⟩
    · simp [hr, reject400, h]
    · simp [hr, reject400, h]

theorem sendMessage_calls_iff_truthy_witness :
    (bodyToken okPlatform zeroChatRequest).truthy = true ∧
      getProp zeroChatRequest.body "chat_id" = .num 0 ∧
      sendMessage okPlatform zeroChatRequest =
        { calls := [], requests := [],
          response :=
            ⟨400, .obj [("ok", .bool false),
              ("description", .str "chat_id and text are required")]⟩ } :=
  ⟨by decide, rfl,
    (sendMessage_calls_iff_truthy okPlatform zeroChatRequest (by decide)).2.2.1 (by decide)⟩

/-! ## Fields with a default -/

theorem setWebhook_forward {p : Platform} {req : Request}
    (htoken : (bodyToken p req).truthy = true) :
    setWebhook p req =
      forward p "setWebhook" (bodyToken p req)
        (.obj [ ("url", (getProp req.body "url").or (.str "")),
          ("drop_pending_updates", (getProp req.body "drop_pending_updates").or (.bool false)) ]) := by
  simp [setWebhook, htoken]

theorem getMe_forward {p : Platform} {req : Request}
    (htoken : (queryToken p req).truthy = true) :
    getMe p req = forward p "getMe" (queryToken p req) .undefined := by
  simp [getMe, htoken]

/-- C5, as stated, fails: `drop_pending_updates: 0` is supplied to
`setWebhook` and the parameter set carries `false`; `limit` is supplied to
`getUpdates` as the empty string and the parameter set carries `100`. -/
theorem supplied_falsy_value_replaced :
    getProp zeroFlagRequest.body "drop_pending_updates" = .num 0 ∧
      (setWebhook okPlatform zeroFlagRequest).calls =
        [⟨"setWebhook", .str "T",
          .obj [("url", .str "https://example.org/hook"),
            ("drop_pending_updates", .bool false)]⟩] ∧
      getProp blankLimitRequest.query "limit" = .str "" ∧
      (getUpdates okPlatform blankLimitRequest).calls =
        [⟨"getUpdates", .str "T", .obj [("limit", .num 100), ("timeout", .num 0)]⟩] :=
  ⟨rfl, rfl, rfl, rfl⟩

/-- C5, amended: for every `setWebhook` request whose token resolves, the
parameter set has exactly the keys `url` and `drop_pending_updates`, each
equal to the value in the body when that value is truthy and to `''` and
`false` respectively when it is missing or falsy; for every `getUpdates`
request whose token resolves, the parameter set has `limit` and `timeout`,
each equal to the value in the query when that value is truthy and to `100`
and `0` respectively when it is missing or falsy. -/
theorem defaulted_fields_present (p : Platform) (reqGet reqPost : Request)
    (hq : (queryToken p reqGet).truthy = true)
    (hb : (bodyToken p reqPost).truthy = true) :
    (∃ data, (setWebhook p reqPost).calls = [⟨"setWebhook", bodyToken p reqPost, data⟩] ∧
        data.keys = ["url", "drop_pending_updates"] ∧
        data.get "url" =
          (if (getProp reqPost.body "url").truthy then getProp reqPost.body "url"
            else .str "") ∧
        data.get "drop_pending_updates" =
          (if (getProp reqPost.body "drop_pending_updates").truthy then
            getProp reqPost.body "drop_pending_updates"
            else .bool false)) ∧
      (∃ data, (getUpdates p reqGet).calls = [⟨"getUpdates", queryToken p reqGet, data⟩] ∧
        "limit" ∈ data.keys ∧ "timeout" ∈ data.keys ∧
        data.get "limit" =
          (if (getProp reqGet.query "limit").truthy then getProp reqGet.query "limit"
            else .num 100) ∧
        data.get "timeout" =
          (if (getProp reqGet.query "timeout").truthy then getProp reqGet.query "timeout"
            else .num 0)) := by
  constructor
  · refine ⟨_, by rw [setWebhook_forward hb, forward_calls], ?_, ?_, ?_⟩
    · simp [JSValue.keys]
    · simp [JSValue.get, getProp_cons, JSValue.or]
    · simp [JSValue.get, getProp_cons, JSValue.or]
  · refine ⟨_, by rw [getUpdates_forward hq, forward_calls], ?_, ?_, ?_, ?_⟩
    · rw [params_eq]
      cases (getProp reqGet.query "offset").truthy <;> simp [JSValue.keys]
    · rw [params_eq]
      cases (getProp reqGet.query "offset").truthy <;> simp [JSValue.keys]
    · rw [params_eq]
      cases (getProp reqGet.query "offset").truthy <;>
        simp [JSValue.get, getProp_cons, JSValue.or]
    · rw [params_eq]
      cases (getProp reqGet.query "offset").truthy <;>
        simp [JSValue.get, getProp_cons, JSValue.or]

theorem defaulted_fields_present_witness :
    (queryToken okPlatform blankLimitRequest).truthy = true ∧
      (bodyToken okPlatform zeroFlagRequest).truthy = true ∧
      ∃ data, (setWebhook okPlatform zeroFlagRequest).calls =
          [⟨"setWebhook", bodyToken okPlatform zeroFlagRequest, data⟩] ∧
        data.keys = ["url", "drop_pending_updates"] ∧
        data.get "url" =
          (if (getProp zeroFlagRequest.body "url").truthy then getProp zeroFlagRequest.body "url"
            else .str "") ∧
        data.get "drop_pending_updates" =
          (if (getProp zeroFlagRequest.body "drop_pending_updates").truthy then
            getProp zeroFlagRequest.body "drop_pending_updates"
            else .bool false) :=
  ⟨by decide, by decide,
    (defaulted_fields_present okPlatform blankLimitRequest zeroFlagRequest (by decide)
      (by decide)).1⟩

/-! ## The token -/

theorem handle_forward {route : Route} {p : Platform} {req : Request}
    (hv : passesValidation route p req = true) :
    ∃ method data,
      handle route p req = forward p method ((requestToken route req).or p.envToken) data := by
  cases route
  · exact ⟨_, _, getUpdates_forward hv⟩
  · simp only [passesValidation, Bool.and_eq_true] at hv
    exact ⟨_, _, sendMessage_forward hv.1.1 hv.1.2 hv.2⟩
  · exact ⟨_, _, getMe_forward hv⟩
  · exact ⟨_, _, setWebhook_forward hv⟩

theorem handle_reject {route : Route} {p : Platform} {req : Request}
    (hv : passesValidation route p req = false) :
    ∃ d, handle route p req = reject400 d := by
  cases route
  · exact ⟨_, getUpdates_reject hv⟩
  · simp only [passesValidation] at hv
    cases htoken : (bodyToken p req).truthy
    · exact ⟨_, sendMessage_reject htoken⟩
    · refine ⟨_, sendMessage_invalid htoken ?_⟩
      rintro ⟨h1, h2⟩
      simp [htoken, h1, h2] at hv
  · exact ⟨_, getMe_reject hv⟩
  · exact ⟨_, setWebhook_reject hv⟩

/-- C9, as stated, fails: the request gives the token `""` (in the query for
`getUpdates`, in the body for `sendMessage`), the environment holds `ENV`, and
the token passed to `telegramRequest` is `ENV`. -/
theorem blank_token_falls_back :
    requestToken .getUpdates blankTokenRequest = .str "" ∧
      (handle .getUpdates envPlatform blankTokenRequest).calls.map (fun c => c.token.toStr) =
        ["ENV"] ∧
      requestToken .sendMessage blankTokenRequest = .str "" ∧
      (handle .sendMessage envPlatform blankTokenRequest).calls.map (fun c => c.token.toStr) =
        ["ENV"] :=
  ⟨rfl, by decide, rfl, by decide⟩

/-- C9, amended: on each of the four routes, the token passed to
`telegramRequest` is the token of the request (`query.token` on the GET
routes, `body.token` on the POST routes) whenever that one is truthy, whatever
the environment holds; it is the environment default `TELEGRAM_BOT_TOKEN`
when the token of the request is missing or falsy, the empty string
included. -/
theorem token_precedence (route : Route) (p : Platform) (req : Request) (c : TelegramCall)
    (hc : c ∈ (handle route p req).calls) :
    c.token =
      if (requestToken route req).truthy then requestToken route req else p.envToken := by
  cases hv : passesValidation route p req
  · obtain ⟨d, hd⟩ := handle_reject hv
    simp [hd, reject400] at hc
  · obtain ⟨m, data, hf⟩ := handle_forward hv
    rw [hf, forward_calls, List.mem_singleton] at hc
    subst hc
    rfl

theorem token_precedence_witness :
    (⟨"getUpdates", .str "T", .obj [("limit", .num 100), ("timeout", .num 0)]⟩ : TelegramCall) ∈
        (handle .getUpdates envPlatform tokenRequest).calls ∧
      JSValue.str "T" =
        if (requestToken .getUpdates tokenRequest).truthy then
          requestToken .getUpdates tokenRequest
        else envPlatform.envToken :=
  ⟨List.mem_cons_self _ _,
    token_precedence .getUpdates envPlatform tokenRequest _ (List.mem_cons_self _ _)⟩

/-! ## The reply -/

theorem forward_response_ok {p : Platform} {method : String} {token data : JSValue}
    {st : Nat} {chunks : List (List Nat)} {J : JSValue}
    (hnet : p.https_request (buildRequest method token data) = .response st chunks)
    (hparse : p.JSON_parse (responseData chunks) = some J) :
    (forward p method token data).response = ⟨200, J⟩ := by
  simp [forward, telegramRequest, hnet, hparse]

theorem forward_response_invalid {p : Platform} {method : String} {token data : JSValue}
    {st : Nat} {chunks : List (List Nat)}
    (hnet : p.https_request (buildRequest method token data) = .response st chunks)
    (hparse : p.JSON_parse (responseData chunks) = none) :
    (forward p method token data).response =
      ⟨500, errorBody ("Internal server error: " ++ "Invalid JSON response from Telegram API")⟩ := by
  simp [forward, telegramRequest, hnet, hparse]

theorem forward_response_error {p : Platform} {method : String} {token data : JSValue}
    {m : String}
    (hnet : p.https_request (buildRequest method token data) = .error m) :
    (forward p method token data).response =
      ⟨500, errorBody ("Internal server error: " ++ m)⟩ := by
  simp [forward, telegramRequest, hnet]

/-- The accumulated text is the strings of the chunks, one after the other. -/
theorem responseData_eq (chunks : List (List Nat)) :
    responseData chunks = String.join (chunks.map utf8Decode) := by
  unfold responseData String.join
  rw [List.foldl_map]

/-- What every route relays: for a request that passes validation, if the
upstream answers with chunks whose accumulated text `JSON.parse` turns into
`J`, the reply is 200 with body `J`, whatever the status code and `J` are. -/
theorem accumulated_text_relayed (route : Route) (p : Platform) (req : Request)
    (st : Nat) (chunks : List (List Nat)) (J : JSValue)
    (hvalid : passesValidation route p req = true)
    (hnet : ∀ r ∈ (handle route p req).requests, p.https_request r = .response st chunks)
    (hparse : p.JSON_parse (responseData chunks) = some J) :
    (handle route p req).response = ⟨200, J⟩ := by
  obtain ⟨m, data, hf⟩ := handle_forward hvalid
  rw [hf] at hnet ⊢
  exact forward_response_ok (hnet _ (List.mem_cons_self _ _)) hparse

/-- The body `{"ok":true,"result":[]}` of ASCII characters, in three chunks,
is relayed by `getUpdates` as it is. -/
theorem ok_body_relayed :
    responseData okChunks = "\x7b\"ok\":true,\"result\":[]\x7d" ∧
      (handle .getUpdates okPlatform tokenRequest).response =
        ⟨200, .obj [("ok", .bool true), ("result", .arr [])]⟩ :=
  ⟨rfl, rfl⟩

/-- C6 fails on the code: the upstream body `"é"` (bytes 22 C3 A9 22) parses
as the string `é`; when it arrives in two chunks that part the character, a
request to `getUpdates` that passes validation is answered 200 with the string
of two U+FFFD, not with `é`. The accumulated text differs from the text of the
body, because each chunk is decoded on its own. -/
theorem split_character_not_relayed :
    utf8Decode splitChunks.flatten = "\"\u00e9\"" ∧
      splitPlatform.JSON_parse (utf8Decode splitChunks.flatten) = some (.str "\u00e9") ∧
      passesValidation .getUpdates splitPlatform tokenRequest = true ∧
      (handle .getUpdates splitPlatform tokenRequest).requests.map splitPlatform.https_request =
        [.response 200 [[0x22, 0xC3], [0xA9, 0x22]]] ∧
      responseData splitChunks = "\"\ufffd\ufffd\"" ∧
      (handle .getUpdates splitPlatform tokenRequest).response = ⟨200, .str "\ufffd\ufffd"⟩ ∧
      (handle .getUpdates splitPlatform tokenRequest).response.body.toStr ≠ "\u00e9" :=
  ⟨rfl, rfl, rfl, rfl, rfl, rfl, by decide⟩

/-- C7: on each of the four routes, for a request that passes validation, if
the request issued fails with an error of message `m`, the reply is 500
`{ok: false, description: "Internal server error: " + m}`; if the upstream
answers with a body on which `JSON.parse` throws, the reply is 500 with the
description `Internal server error: Invalid JSON response from Telegram API`. -/
theorem helper_failure (route : Route) (p : Platform) (req : Request)
    (hvalid : passesValidation route p req = true) :
    (∀ m : String, (∀ r ∈ (handle route p req).requests, p.https_request r = .error m) →
        (handle route p req).response =
          ⟨500, .obj [("ok", .bool false),
            ("description", .str ("Internal server error: " ++ m))]⟩) ∧
      (∀ (st : Nat) (chunks : List (List Nat)),
        (∀ r ∈ (handle route p req).requests, p.https_request r = .response st chunks) →
        p.JSON_parse (responseData chunks) = none →
        (handle route p req).response =
          ⟨500, .obj [("ok", .bool false),
            ("description",
              .str "Internal server error: Invalid JSON response from Telegram API")]⟩) := by
  obtain ⟨m, data, hf⟩ := handle_forward hvalid
  rw [hf]
  constructor
  · intro msg hnet
    exact forward_response_error (hnet _ (List.mem_cons_self _ _))
  · intro st chunks hnet hparse
    exact forward_response_invalid (hnet _ (List.mem_cons_self _ _)) hparse

theorem helper_failure_witness :
    passesValidation .sendMessage envPlatform tokenRequest = true ∧
      (handle .sendMessage envPlatform tokenRequest).response =
        ⟨500, .obj [("ok", .bool false),
          ("description", .str "Internal server error: connect ECONNREFUSED")]⟩ ∧
      passesValidation .getMe htmlPlatform tokenRequest = true ∧
      (handle .getMe htmlPlatform tokenRequest).response =
        ⟨500, .obj [("ok", .bool false),
          ("description",
            .str "Internal server error: Invalid JSON response from Telegram API")]⟩ :=
  ⟨by decide,
    (helper_failure .sendMessage envPlatform tokenRequest (by decide)).1 "connect ECONNREFUSED"
      (fun _ _ => rfl),
    by decide,
    (helper_failure .getMe htmlPlatform tokenRequest (by decide)).2 502
      [asciiBytes "<html>Bad Gateway</html>"] (fun _ _ => rfl) rfl⟩

/-- Passing validation is the same as reaching `telegramRequest`. -/
theorem passesValidation_iff_calls (route : Route) (p : Platform) (req : Request) :
    passesValidation route p req = true ↔ (handle route p req).calls ≠ [] := by
  cases hv : passesValidation route p req
  · obtain ⟨d, hd⟩ := handle_reject hv
    simp [hd, reject400]
  · obtain ⟨m, data, hf⟩ := handle_forward hv
    simp [hf, forward_calls]

/-! ## The outbound request -/

theorem braces_nonempty (x : String) : ("\x7b" ++ x ++ "\x7d" != "") = true := by
  have h : ("\x7b" ++ x ++ "\x7d").length ≠ 0 := by
    rw [String.length_append, String.length_append]
    have h1 : "\x7b".length = 1 := rfl
    omega
  have hne : "\x7b" ++ x ++ "\x7d" ≠ "" := by
    intro he
    rw [he] at h
    exact h rfl
  simpa using hne

theorem buildRequest_obj (method : String) (token : JSValue) (props : List (String × JSValue)) :
    buildRequest method token (.obj props) =
      { hostname := "api.telegram.org"
        path := "/bot" ++ token.toStr ++ "/" ++ method
        method := "POST"
        contentType := "application/json"
        contentLength :=
          some ("\x7b" ++ ",".intercalate (stringifyProps props) ++ "\x7d").utf8ByteSize
        body := some ("\x7b" ++ ",".intercalate (stringifyProps props) ++ "\x7d") } := by
  simp [buildRequest, isUndefined, truthy, stringify, braces_nonempty]

/-- C8: for every method, token and parameter set, `telegramRequest` builds a
request to the host `api.telegram.org` with path `/bot<token>/<method>` (a
token `t` that is a string stands in the path as it is); with
a parameter set it is a POST whose body is the JSON serialisation of the set;
without one it is a GET with no body; and `getMe`, for a request whose token
resolves, issues exactly one request, a GET with no body, whatever else the
query holds. -/
theorem telegramRequest_builds (p : Platform) (method : String) (token : JSValue)
    (props : List (String × JSValue)) (t : String) (req : Request)
    (htoken : (queryToken p req).truthy = true) :
    (∃ json, stringify (.obj props) = some json ∧
        (telegramRequest p method token (.obj props)).1 =
          { hostname := "api.telegram.org"
            path := "/bot" ++ token.toStr ++ "/" ++ method
            method := "POST"
            contentType := "application/json"
            contentLength := some json.utf8ByteSize
            body := some json }) ∧
      (telegramRequest p method token .undefined).1 =
        { hostname := "api.telegram.org"
          path := "/bot" ++ token.toStr ++ "/" ++ method
          method := "GET"
          contentType := "application/json"
          contentLength := none
          body := none } ∧
      (telegramRequest p method (.str t) (.obj props)).1.path = "/bot" ++ t ++ "/" ++ method ∧
      (telegramRequest p method (.str t) .undefined).1.path = "/bot" ++ t ++ "/" ++ method ∧
      (getMe p req).requests =
        [{ hostname := "api.telegram.org"
           path := "/bot" ++ (queryToken p req).toStr ++ "/" ++ "getMe"
           method := "GET"
           contentType := "application/json"
           contentLength := none
           body := none }] := by
  refine ⟨⟨"\x7b" ++ ",".intercalate (stringifyProps props) ++ "\x7d", ?_, ?_⟩, rfl, rfl, rfl, ?_⟩
  · simp [stringify]
  · simp [telegramRequest, buildRequest_obj]
  · rw [getMe_forward htoken, forward_requests]
    rfl

theorem telegramRequest_builds_witness :
    (queryToken okPlatform tokenRequest).truthy = true ∧
      (telegramRequest okPlatform "sendMessage" (.str "T")
          (.obj [("chat_id", .num 1), ("text", .str "hi")])).1 =
        { hostname := "api.telegram.org"
          path := "/botT/sendMessage"
          method := "POST"
          contentType := "application/json"
          contentLength := some 25
          body := some "\x7b\"chat_id\":1,\"text\":\"hi\"\x7d" } ∧
      (getMe okPlatform tokenRequest).requests =
        [{ hostname := "api.telegram.org"
           path := "/botT/getMe"
           method := "GET"
           contentType := "application/json"
           contentLength := none
           body := none }] :=
  ⟨by decide, rfl,
    (telegramRequest_builds okPlatform "sendMessage" (.str "T")
      [("chat_id", .num 1), ("text", .str "hi")] "T" tokenRequest (by decide)).2.2.2.2⟩

end Telegram
